import Mathlib

/-!
Verification of the FreqCalculator AI-response normalization and scoring
pipeline (src/src/routes/index.tsx).  JSON values parsed from the AI
envelope are modelled by the inductive `Json` (numbers as exact rationals;
JavaScript `NaN` arising from numeric coercion is modelled as `Option.none`
in `JSNum`).  The metric engine (frequency, TOM, LTV growth, coverage) is
modelled over the reals; `Math.sqrt` is modelled by `jsSqrt`, which is
NaN (`none`) at negative arguments, and `Math.log10` as `Real.logb 10`
(exercised only at positive budgets).
-/

namespace FreqCalc

/-- A JSON value as produced by `JSON.parse`.  Object fields keep insertion
order; duplicate keys are resolved at parse time (last value wins, stored at
the first position, as in JavaScript). -/
inductive Json where
  | nullV : Json
  | boolV (b : Bool) : Json
  | numV (q : ℚ) : Json
  | strV (s : String) : Json
  | arrV (items : List Json) : Json
  | objV (entries : List (String × Json)) : Json

/-- Property access `v.k` on a JSON value: defined for objects, `undefined`
(`none`) for everything else (non-index keys on arrays and primitives). -/
def jsGet : Json → String → Option Json
  | .objV kvs, k => (kvs.find? (fun p => p.1 = k)).map (fun p => p.2)
  | _, _ => none

/-- The JavaScript `k in v` test for the non-index keys used by the source. -/
def jsHas (v : Json) (k : String) : Bool := (jsGet v k).isSome

/-- `typeof v === 'object' && v !== null` for JSON values. -/
def objLike : Json → Bool
  | .objV _ => true
  | .arrV _ => true
  | _ => false

/-- JavaScript truthiness of a JSON value. -/
def jsTruthy : Json → Bool
  | .nullV => false
  | .boolV b => b
  | .numV q => if q = 0 then false else true
  | .strV s => if s = "" then false else true
  | .arrV _ => true
  | .objV _ => true

/-! ### A model of `JSON.parse` -/

/-- JSON whitespace (space, tab, line feed, carriage return). -/
def isJsonWs (c : Char) : Bool :=
  c = ' ' || c = '\t' || c = '\n' || c = '\r'

def skipWs : List Char → List Char
  | c :: cs => if isJsonWs c then skipWs cs else c :: cs
  | [] => []

def startsWithL : List Char → List Char → Bool
  | _, [] => true
  | [], _ :: _ => false
  | a :: as, b :: bs => a = b && startsWithL as bs

def digitVal (c : Char) : Nat := c.toNat - '0'.toNat

def digitsToNat (ds : List Char) : Nat :=
  ds.foldl (fun a c => a * 10 + digitVal c) 0

/-- Parse the integer digits of a JSON number: a single `0`, or a nonzero
digit followed by any digits (JSON forbids leading zeros). -/
def parseIntDigits : List Char → Option (List Char × List Char)
  | '0' :: rest => some (['0'], rest)
  | c :: rest =>
    if c.isDigit then
      let more := rest.takeWhile Char.isDigit
      some (c :: more, rest.dropWhile Char.isDigit)
    else none
  | [] => none

/-- Parse a JSON number literal, returning its exact rational value. -/
def parseNumLit (cs : List Char) : Option (ℚ × List Char) := do
  let isNeg : Bool := match cs with
    | '-' :: _ => true
    | _ => false
  let cs1 := if isNeg then cs.drop 1 else cs
  let (intDs, cs2) ← parseIntDigits cs1
  let (fracDs, cs3) := match cs2 with
    | '.' :: r =>
      let ds := r.takeWhile Char.isDigit
      (ds, r.dropWhile Char.isDigit)
    | _ => ([], cs2)
  if cs2 ≠ cs3 && fracDs = [] then none else
  let (expOk, expVal, cs4) := match cs3 with
    | 'e' :: r | 'E' :: r =>
      let (esgn, r1) := match r with
        | '+' :: r2 => ((1 : ℤ), r2)
        | '-' :: r2 => ((-1 : ℤ), r2)
        | _ => ((1 : ℤ), r)
      let ds := r1.takeWhile Char.isDigit
      if ds = [] then (false, (0 : ℤ), cs3)
      else (true, esgn * (digitsToNat ds : ℤ), r1.dropWhile Char.isDigit)
    | _ => (true, 0, cs3)
  if !expOk then none else
  let mantissa : ℚ :=
    (digitsToNat intDs : ℚ) + (digitsToNat fracDs : ℚ) / (10 : ℚ) ^ fracDs.length
  let v : ℚ := (if isNeg then -mantissa else mantissa) * (10 : ℚ) ^ expVal
  some (v, cs4)

def hexVal (c : Char) : Option Nat :=
  if c.isDigit then some (digitVal c)
  else
    let folded := c.toNat ||| 32
    if 97 ≤ folded && folded ≤ 102 then some (folded - 87) else none

/-- Parse the body of a JSON string literal (after the opening quote). -/
def parseStrBody : Nat → List Char → List Char → Option (String × List Char)
  | 0, _, _ => none
  | _ + 1, acc, '"' :: rest => some (String.mk acc.reverse, rest)
  | f + 1, acc, '\\' :: e :: rest =>
    match e with
    | '"' => parseStrBody f ('"' :: acc) rest
    | '\\' => parseStrBody f ('\\' :: acc) rest
    | '/' => parseStrBody f ('/' :: acc) rest
    | 'b' => parseStrBody f ('\x08' :: acc) rest
    | 'f' => parseStrBody f ('\x0c' :: acc) rest
    | 'n' => parseStrBody f ('\n' :: acc) rest
    | 'r' => parseStrBody f ('\r' :: acc) rest
    | 't' => parseStrBody f ('\t' :: acc) rest
    | 'u' =>
      match rest with
      | a :: b :: c :: d :: rest2 =>
        match hexVal a, hexVal b, hexVal c, hexVal d with
        | some ha, some hb, some hc, some hd =>
          let n := ((ha * 16 + hb) * 16 + hc) * 16 + hd
          parseStrBody f (Char.ofNat n :: acc) rest2
        | _, _, _, _ => none
      | _ => none
    | _ => none
  | f + 1, acc, c :: rest =>
    if c.toNat < 32 then none else parseStrBody f (c :: acc) rest
  | _, _, [] => none

/-- Insert a key/value pair as JavaScript object construction does: a
duplicate key overwrites the value in place, otherwise the pair is
appended. -/
def insertKV (kvs : List (String × Json)) (k : String) (v : Json) :
    List (String × Json) :=
  if kvs.any (fun p => p.1 = k) then
    kvs.map (fun p => if p.1 = k then (k, v) else p)
  else kvs ++ [(k, v)]

mutual

def parseVal : Nat → List Char → Option (Json × List Char)
  | 0, _ => none
  | f + 1, cs =>
    match skipWs cs with
    | '"' :: rest =>
      match parseStrBody (rest.length + 1) [] rest with
      | some (s, rest2) => some (.strV s, rest2)
      | none => none
    | '[' :: rest =>
      (match skipWs rest with
       | ']' :: rest2 => some (.arrV [], rest2)
       | cs2 =>
         match parseVal f cs2 with
         | some (v, rest2) =>
           match parseArrRest f [v] rest2 with
           | some (vs, rest3) => some (.arrV vs, rest3)
           | none => none
         | none => none)
    | '{' :: rest =>
      (match skipWs rest with
       | '}' :: rest2 => some (.objV [], rest2)
       | cs2 =>
         match parseMember f cs2 with
         | some (k, v, rest2) =>
           match parseObjRest f (insertKV [] k v) rest2 with
           | some (kvs, rest3) => some (.objV kvs, rest3)
           | none => none
         | none => none)
    | cs2 =>
      if startsWithL cs2 "null".data then some (.nullV, cs2.drop 4)
      else if startsWithL cs2 "true".data then some (.boolV true, cs2.drop 4)
      else if startsWithL cs2 "false".data then some (.boolV false, cs2.drop 5)
      else
        match parseNumLit cs2 with
        | some (q, rest) => some (.numV q, rest)
        | none => none

def parseArrRest : Nat → List Json → List Char → Option (List Json × List Char)
  | 0, _, _ => none
  | f + 1, acc, cs =>
    match skipWs cs with
    | ']' :: rest => some (acc.reverse, rest)
    | ',' :: rest =>
      (match parseVal f rest with
       | some (v, rest2) => parseArrRest f (v :: acc) rest2
       | none => none)
    | _ => none

def parseMember : Nat → List Char → Option (String × Json × List Char)
  | 0, _ => none
  | f + 1, cs =>
    match skipWs cs with
    | '"' :: rest =>
      (match parseStrBody (rest.length + 1) [] rest with
       | some (k, rest2) =>
         match skipWs rest2 with
         | ':' :: rest3 =>
           (match parseVal f rest3 with
            | some (v, rest4) => some (k, v, rest4)
            | none => none)
         | _ => none
       | none => none)
    | _ => none

def parseObjRest :
    Nat → List (String × Json) → List Char → Option (List (String × Json) × List Char)
  | 0, _, _ => none
  | f + 1, acc, cs =>
    match skipWs cs with
    | '}' :: rest => some (acc, rest)
    | ',' :: rest =>
      (match parseMember f rest with
       | some (k, v, rest2) => parseObjRest f (insertKV acc k v) rest2
       | none => none)
    | _ => none

end

/-- The model of `JSON.parse`: parse one value and require only whitespace
after it; any failure is a thrown `SyntaxError`. -/
def jsonParse (s : String) : Except String Json :=
  match parseVal (s.length + 1) s.data with
  | some (v, rest) =>
    if (skipWs rest).isEmpty then .ok v else .error "SyntaxError"
  | none => .error "SyntaxError"

/-! ### JavaScript numeric coercion (`ToNumber`), with `none` playing NaN -/

/-- Whitespace trimmed by JavaScript string-to-number coercion and matched
by the regex class `\s` (common subset). -/
def isJsWsBroad (c : Char) : Bool :=
  c = ' ' || c = '\t' || c = '\n' || c = '\r' || c = '\x0b' || c = '\x0c' ||
  c = ' '

def trimJsWs (cs : List Char) : List Char :=
  ((cs.dropWhile isJsWsBroad).reverse.dropWhile isJsWsBroad).reverse

/-- Parse a full JavaScript decimal numeric literal (as accepted by
`Number("...")`): optional sign, digits with optional fraction or a bare
fraction, optional exponent; the whole input must be consumed. -/
def parseCoerceNum (cs : List Char) : Option ℚ :=
  let (sgn, cs1) : ℚ × List Char :=
    match cs with
    | '+' :: r => (1, r)
    | '-' :: r => (-1, r)
    | _ => (1, cs)
  let intDs := cs1.takeWhile Char.isDigit
  let cs2 := cs1.dropWhile Char.isDigit
  let (fracDs, cs3) : List Char × List Char :=
    match cs2 with
    | '.' :: r => (r.takeWhile Char.isDigit, r.dropWhile Char.isDigit)
    | _ => ([], cs2)
  if intDs.isEmpty && fracDs.isEmpty then none
  else
    let mant : ℚ :=
      (digitsToNat intDs : ℚ) + (digitsToNat fracDs : ℚ) / (10 : ℚ) ^ fracDs.length
    match cs3 with
    | [] => some (sgn * mant)
    | 'e' :: r | 'E' :: r =>
      let (esgn, r1) : ℤ × List Char :=
        match r with
        | '+' :: r2 => (1, r2)
        | '-' :: r2 => (-1, r2)
        | _ => (1, r)
      let ds := r1.takeWhile Char.isDigit
      if ds.isEmpty || !(r1.dropWhile Char.isDigit).isEmpty then none
      else some (sgn * mant * (10 : ℚ) ^ (esgn * (digitsToNat ds : ℤ)))
    | _ => none

/-- `Number(s)` for a string `s`: trim, empty means `0`, otherwise a full
decimal literal; anything else is NaN (`none`). -/
def strToNumber (s : String) : Option ℚ :=
  let cs := trimJsWs s.data
  if cs.isEmpty then some 0 else parseCoerceNum cs

/-- JavaScript `ToNumber` on a JSON value (`none` is NaN).  Singleton
arrays coerce through their string form, matched here for the primitive
element shapes; plain objects are NaN. -/
def toNumber : Json → Option ℚ
  | .nullV => some 0
  | .boolV b => some (if b then 1 else 0)
  | .numV q => some q
  | .strV s => strToNumber s
  | .objV _ => none
  | .arrV [] => some 0
  | .arrV [.nullV] => some 0
  | .arrV [.numV q] => some q
  | .arrV [.strV s] => strToNumber s
  | .arrV _ => none

/-! ### The regex fallbacks of the normalizer -/

/-- Index of the first occurrence of `pat` in `hay`. -/
def findSubIdx (pat : List Char) : List Char → Option Nat
  | [] => if startsWithL [] pat then some 0 else none
  | c :: rest =>
    if startsWithL (c :: rest) pat then some 0
    else (findSubIdx pat rest).map Nat.succ

def lbrace : Char := Char.ofNat 123
def rbrace : Char := Char.ofNat 125

/-- The source regex for a fenced block tagged json: its leftmost match
starts at the first occurrence of the opening tag, the greedy leading
whitespace and lazy body end at the first closing triple backtick, and the
trailing whitespace is absorbed before the close.  Returns (whole match,
capture group 1). -/
def fencedMatch (s : String) : Option (String × String) :=
  let cs := s.data
  match findSubIdx "```json".data cs with
  | none => none
  | some i =>
    let afterTag := cs.drop (i + 7)
    let wsLen := (afterTag.takeWhile isJsWsBroad).length
    let rest2 := afterTag.drop wsLen
    match findSubIdx "```".data rest2 with
    | none => none
    | some j =>
      let grp := String.mk (((rest2.take j).reverse.dropWhile isJsWsBroad).reverse)
      let whole := String.mk ((cs.drop i).take (7 + wsLen + j + 3))
      some (whole, grp)

/-- The source regex for a lazy brace-delimited span containing the quoted
token parameters: from the first open brace, through the first occurrence
of the quoted token after it, to the first close brace after that. -/
def bracesMatch (s : String) : Option String :=
  let cs := s.data
  match cs.findIdx? (fun c => c = lbrace) with
  | none => none
  | some i =>
    match findSubIdx "\"parameters\"".data (cs.drop (i + 1)) with
    | none => none
    | some d =>
      let afterP := i + 1 + d + 12
      match (cs.drop afterP).findIdx? (fun c => c = rbrace) with
      | none => none
      | some e => some (String.mk ((cs.drop i).take (afterP + e + 1 - i)))

/-- `content.match(fenced) || content.match(braces)`, then
`jsonMatch[1] || jsonMatch[0]` (the braces regex has no capture group; an
empty capture falls back to the whole match). -/
def fallbackText (s : String) : Option String :=
  match fencedMatch s with
  | some (whole, grp) => some (if grp = "" then whole else grp)
  | none =>
    match bracesMatch s with
    | some whole => some whole
    | none => none

/-! ### The extraction strategies -/

/-- A normalization failure: either an error message stored directly
(an early return calling the error setter), or a thrown exception that the
surrounding try/catch converts into a message. -/
inductive NormError where
  | direct (msg : String)
  | thrown (msg : String)
deriving DecidableEq

/-- Strategy 1, string content: direct parse, then fenced-block or brace
fallback; parse failures of the extracted text are thrown, and a missing
fallback throws its own error. -/
def extractContentString (s : String) : Except NormError Json :=
  match jsonParse s with
  | .ok j => .ok j
  | .error _ =>
    match fallbackText s with
    | some t =>
      (match jsonParse t with
       | .ok j => .ok j
       | .error e2 => .error (.thrown e2))
    | none => .error (.thrown "JSON не найден в строке content")

/-- Strategy 3, string envelope (same parsing as strategy 1, but a missing
fallback stores a direct message instead of throwing). -/
def extractEnvelopeString (s : String) : Except NormError Json :=
  match jsonParse s with
  | .ok j => .ok j
  | .error _ =>
    match fallbackText s with
    | some t =>
      (match jsonParse t with
       | .ok j => .ok j
       | .error e2 => .error (.thrown e2))
    | none => .error (.direct "Валидный JSON не найден в ответе ИИ")

/-- Strategy 4, one string field: here every parse failure is swallowed and
the scan moves on. -/
def tryFieldString (s : String) : Option Json :=
  match jsonParse s with
  | .ok j => some j
  | .error _ =>
    match fallbackText s with
    | some t => (jsonParse t).toOption
    | none => none

def possibleFields : List String := ["content", "text", "output", "result", "data"]

/-- Strategy 4: scan the fixed field list in order; a string field is
parsed with fallback, an object-like field is used when it carries a
parameters key; everything else is skipped. -/
def scanFields (resp : Json) : List String → Option Json
  | [] => none
  | f :: rest =>
    match jsGet resp f with
    | some (.strV s) =>
      (match tryFieldString s with
       | some j => some j
       | none => scanFields resp rest)
    | some v =>
      if objLike v && jsHas v "parameters" then some v
      else scanFields resp rest
    | none => scanFields resp rest

/-- Inside strategy 1, after `choices[0].message` was found object-like:
require a content field and dispatch on its type. -/
def handleMessage (m : Json) : Except NormError Json :=
  match jsGet m "content" with
  | none => .error (.thrown "Нет поля content в message")
  | some content =>
    match content with
    | .strV s => extractContentString s
    | .objV _ => .ok content
    | .arrV _ => .ok content
    | _ => .error (.thrown "Неверный тип content в ответе OpenAI")

/-- Strategy 1 on the first element of choices.  A primitive first element
makes the `in` test itself throw a TypeError; a missing or non-object
message throws the dedicated message. -/
def handleChoice (c0 : Json) : Except NormError Json :=
  if !objLike c0 then .error (.thrown "TypeError: cannot use in operator")
  else
    match jsGet c0 "message" with
    | some m =>
      if objLike m then handleMessage m
      else .error (.thrown "Нет поля message в choice")
    | none => .error (.thrown "Нет поля message в choice")

/-- The strategy dispatch of the AI-response effect.  The very first test
(`choices in response`) throws a TypeError when the envelope is not
object-like, so the string-envelope strategy below is kept for fidelity but
is unreachable.  A non-empty choices array commits to strategy 1;
otherwise a top-level parameters key makes the envelope the payload;
otherwise the field scan runs; anything else is an unrecognized shape. -/
def extractPayload (resp : Json) : Except NormError Json :=
  if !objLike resp then .error (.thrown "TypeError: cannot use in operator")
  else
    match jsGet resp "choices" with
    | some (.arrV (c0 :: _)) => handleChoice c0
    | _ =>
      if jsHas resp "parameters" then .ok resp
      else
        match resp with
        | .strV s => extractEnvelopeString s
        | _ =>
          if objLike resp then
            match scanFields resp possibleFields with
            | some j => .ok j
            | none => .error (.direct "Не удалось извлечь данные ИИ-анализа из ответа")
          else .error (.direct "Неверный формат ответа от ИИ")

/-! ### Validation and result construction -/

/-- The clamp on an already-coerced number:
`Math.max(-2.0, Math.min(2.0, val))`. -/
def clampQ (q : ℚ) : ℚ := max (-2) (min 2 q)

/-- The source clamp applied to an arbitrary JSON value: `Math.min`
coerces its argument, and NaN (`none`) propagates through min and max. -/
def clampJS (v : Json) : Option ℚ := (toNumber v).map clampQ

/-- `parsed.parameters.key?.value ?? 0`: a missing or null entry, or a
missing or null value field, falls back to the number 0. -/
def rawValue (ps : Json) (key : String) : Json :=
  match jsGet ps key with
  | none => .numV 0
  | some .nullV => .numV 0
  | some e =>
    match jsGet e "value" with
    | none => .numV 0
    | some .nullV => .numV 0
    | some v => v

/-- The stored slider value for one parameter key. -/
def sliderValue (ps : Json) (key : String) : Option ℚ :=
  clampJS (rawValue ps key)

/-- `r || d` for an optional JSON value (undefined and every falsy value
fall back to the default). -/
def jsOrDefault (r : Option Json) (d : Json) : Json :=
  match r with
  | some v => if jsTruthy v then v else d
  | none => d

/-- `parsed.parameters.key?.sub` (no default yet). -/
def textField (ps : Json) (key sub : String) : Option Json :=
  match jsGet ps key with
  | none => none
  | some .nullV => none
  | some e => jsGet e sub

structure AIInsightL where
  id : String
  value : Option ℚ
  insight : Json
  source : Json

/-- One entry of the insights record built on success. -/
def insightOf (ps : Json) (key : String) : AIInsightL :=
  { id := key
  , value := sliderValue ps key
  , insight := jsOrDefault (textField ps key "insight") (.strV "Инсайт недоступен")
  , source := jsOrDefault (textField ps key "source") (.strV "ИИ-Анализ") }

structure SliderParamsL where
  brandAwareness : Option ℚ
  marketSaturation : Option ℚ
  campaignGoal : Option ℚ
  targetAudience : Option ℚ
  productComplexity : Option ℚ
  messageComplexity : Option ℚ
deriving DecidableEq

structure InsightsL where
  brand_awareness : AIInsightL
  market_saturation : AIInsightL
  campaign_goal : AIInsightL
  target_audience : AIInsightL
  product_complexity : AIInsightL
  message_complexity : AIInsightL

/-- `validatedParsed.ta_capacity_rf || 1000000`. -/
def taCapacityOf (parsed : Json) : Json :=
  jsOrDefault (jsGet parsed "ta_capacity_rf") (.numV 1000000)

def defaultKpiJson : Json :=
  .objV [ ("awareness_tom_base", .numV 0.15)
       , ("consideration_search_base", .numV 0.25)
       , ("conversion_uplift_base", .numV 0.08)
       , ("retention_ltv_base", .numV 0.04) ]

structure BuildOut where
  params : SliderParamsL
  insights : InsightsL
  taCapacityRF : Json
  kpiBenchmarks : Json
  recommendedBudget : Json
  budgetReasoning : Json

/-- The validation (`!parsed || !parsed.parameters`) followed by the
construction of the new state values. -/
def buildFromParsed (parsed : Json) : Except NormError BuildOut :=
  if !jsTruthy parsed then .error (.direct "Отсутствуют параметры в ответе ИИ")
  else
    match jsGet parsed "parameters" with
    | none => .error (.direct "Отсутствуют параметры в ответе ИИ")
    | some ps =>
      if !jsTruthy ps then .error (.direct "Отсутствуют параметры в ответе ИИ")
      else .ok
        { params :=
          { brandAwareness := sliderValue ps "brand_awareness"
          , marketSaturation := sliderValue ps "market_saturation"
          , campaignGoal := sliderValue ps "campaign_goal"
          , targetAudience := sliderValue ps "target_audience"
          , productComplexity := sliderValue ps "product_complexity"
          , messageComplexity := sliderValue ps "message_complexity" }
        , insights :=
          { brand_awareness := insightOf ps "brand_awareness"
          , market_saturation := insightOf ps "market_saturation"
          , campaign_goal := insightOf ps "campaign_goal"
          , target_audience := insightOf ps "target_audience"
          , product_complexity := insightOf ps "product_complexity"
          , message_complexity := insightOf ps "message_complexity" }
        , taCapacityRF := taCapacityOf parsed
        , kpiBenchmarks := jsOrDefault (jsGet parsed "kpi_benchmarks") defaultKpiJson
        , recommendedBudget := jsOrDefault (jsGet parsed "recommended_budget") .nullV
        , budgetReasoning := jsOrDefault (jsGet parsed "budget_reasoning") (.strV "") }

/-- The full normalizer: extraction followed by validation and build. -/
def normalizeResponse (resp : Json) : Except NormError BuildOut :=
  match extractPayload resp with
  | .error e => .error e
  | .ok parsed => buildFromParsed parsed

/-! ### The AI-response effect on component state -/

inductive ParamView where
  | manual : ParamView
  | ai : ParamView
deriving DecidableEq

structure AppState where
  params : SliderParamsL
  insights : Option InsightsL
  taCapacityRF : Json
  kpiBenchmarks : Json
  recommendedBudget : Json
  budgetReasoning : Json
  analysisComplete : Bool
  aiErrorMessage : String
  paramView : ParamView

structure AIDataL where
  successful : Bool
  error : Option String
  response : Option Json

/-- How the surrounding try/catch renders a failure: direct messages are
stored verbatim, thrown exceptions get the parse-failure prefix. -/
def renderNormError : NormError → String
  | .direct m => m
  | .thrown m => "Не удалось распарсить ответ ИИ: " ++ m

/-- `aiData.error || default` (an empty error string is falsy). -/
def toolErrorMsg (e : Option String) : String :=
  match e with
  | some m => if m = "" then "Ошибка ИИ-анализа" else m
  | none => "Ошибка ИИ-анализа"

/-- The AI-response useEffect as a state transition: absent data is a
no-op; a tool-reported failure, missing or falsy response, or any
normalization failure stores only an error message; success replaces the
parameter set, insights, capacity, benchmarks and budget fields wholesale
and clears the error. -/
def processAIResponse (s : AppState) (d : Option AIDataL) : AppState :=
  match d with
  | none => s
  | some a =>
    if !a.successful then { s with aiErrorMessage := toolErrorMsg a.error }
    else
      match a.response with
      | none => { s with aiErrorMessage := "Нет данных ответа от ИИ" }
      | some r =>
        if !jsTruthy r then { s with aiErrorMessage := "Нет данных ответа от ИИ" }
        else
          match normalizeResponse r with
          | .error e => { s with aiErrorMessage := renderNormError e }
          | .ok b =>
            { params := b.params
            , insights := some b.insights
            , taCapacityRF := b.taCapacityRF
            , kpiBenchmarks := b.kpiBenchmarks
            , recommendedBudget := b.recommendedBudget
            , budgetReasoning := b.budgetReasoning
            , analysisComplete := true
            , aiErrorMessage := ""
            , paramView := .ai }


/-! ### The metric engine (pure numeric pipeline, over the reals) -/

/-- The six slider parameters as consumed by the metric formulas. -/
structure SliderParamsR where
  brandAwareness : ℝ
  marketSaturation : ℝ
  campaignGoal : ℝ
  targetAudience : ℝ
  productComplexity : ℝ
  messageComplexity : ℝ

/-- `Object.values(params).reduce((acc, val) => acc + val, 0)` in field
insertion order. -/
def sumParams (p : SliderParamsR) : ℝ :=
  0 + p.brandAwareness + p.marketSaturation + p.campaignGoal +
    p.targetAudience + p.productComplexity + p.messageComplexity

/-- `Math.max(1.0, Math.min(15.0, 1.0 + sum))`. -/
noncomputable def frequency (p : SliderParamsR) : ℝ :=
  max 1.0 (min 15.0 (1.0 + sumParams p))

/-- The KPI benchmark constants, as used by the formulas. -/
structure KpiBenchmarksR where
  awareness_tom_base : ℝ
  consideration_search_base : ℝ
  conversion_uplift_base : ℝ
  retention_ltv_base : ℝ

/-- The default benchmark set held in state before any AI analysis. -/
noncomputable def defaultKpiR : KpiBenchmarksR :=
  { awareness_tom_base := 0.15
  , consideration_search_base := 0.25
  , conversion_uplift_base := 0.08
  , retention_ltv_base := 0.04 }

/-- `getBaseTOM`: base KPI selection by campaign goal. -/
def getBaseTOM (kpi : KpiBenchmarksR) (goal : String) : ℝ :=
  if goal = "awareness" then kpi.awareness_tom_base
  else if goal = "consideration" then kpi.consideration_search_base
  else if goal = "conversion" then kpi.conversion_uplift_base
  else if goal = "retention" then kpi.retention_ltv_base
  else 0.15

/-- `getGoalMultiplier`: the TOM goal multiplier table. -/
def getGoalMultiplier (goal : String) : ℝ :=
  if goal = "awareness" then 1.0
  else if goal = "consideration" then 0.7
  else if goal = "conversion" then 0.4
  else if goal = "retention" then 0.2
  else 1.0

/-- `Math.sqrt`: NaN (`none`) at a strictly negative argument, the real
square root otherwise. -/
noncomputable def jsSqrt (x : ℝ) : Option ℝ :=
  if x < 0 then none else some (Real.sqrt x)

/-- `calculateTOM`: zero unless both budget and goal are set, otherwise
base KPI times frequency multiplier, square-root budget correction, goal
multiplier, 100 and the fixed 3.5 boost.  The square-root correction is
NaN for a negative budget, and NaN propagates through the product, so the
result is an optional real with `none` playing NaN. -/
noncomputable def calculateTOM (budget : Option ℚ) (goal : String)
    (freq : ℝ) (kpi : KpiBenchmarksR) : Option ℝ :=
  match budget with
  | none => some 0
  | some b =>
    if goal = "" then some 0
    else
      (jsSqrt ((b : ℝ) / 500000)).map (fun s =>
        getBaseTOM kpi goal * (1 + (freq - 1.0) * 0.08) *
          s * getGoalMultiplier goal * 100 * 3.5)

/-- The LTV goal multiplier record lookup with default 0.5. -/
def ltvGoalMultiplier (goal : String) : ℝ :=
  if goal = "awareness" then 0.3
  else if goal = "consideration" then 0.5
  else if goal = "conversion" then 0.8
  else if goal = "retention" then 1.0
  else 0.5

/-- `calculateLTVGrowth`: zero unless both budget and goal are set,
otherwise the retention base times its own goal multiplier, frequency
multiplier, competition correction, capped budget-quality multiplier, 100
and the fixed 7 boost. -/
noncomputable def calculateLTVGrowth (budget : Option ℚ) (goal : String)
    (freq marketSaturation : ℝ) (kpi : KpiBenchmarksR) : ℝ :=
  match budget with
  | none => 0
  | some b =>
    if goal = "" then 0
    else
      kpi.retention_ltv_base * ltvGoalMultiplier goal *
        (1 + (freq - 1.0) * 0.05) * (1 - marketSaturation * 0.1) *
        min (1.0 + Real.logb 10 ((b : ℝ) / 1000000)) 2.0 * 100 * 7

/-- `calculateCoverage`: zero when the budget field is empty or either
denominator is exactly zero, otherwise impressions at the fixed CPM 400,
divided by frequency and capacity, times 100 and the 0.08 damping. -/
noncomputable def calculateCoverage (budget : Option ℚ) (freq taCap : ℝ) : ℝ :=
  match budget with
  | none => 0
  | some b =>
    if freq = 0 ∨ taCap = 0 then 0
    else
      let impressions := (b : ℝ) / 400 * 1000
      let reach := impressions / freq
      reach / taCap * 100 * 0.08

/-! ### Fixtures and predicates used by the theorems -/

/-- The strategy-1 dispatch condition of the source:
`choices in response && Array.isArray(response.choices) && length > 0`. -/
def choicesCond (resp : Json) : Bool :=
  match jsGet resp "choices" with
  | some (.arrV (_ :: _)) => true
  | _ => false

/-- The C1 counterexample envelope: a non-empty choices array whose first
element lacks a message, next to a top-level parameters field. -/
def c1CexEnvelope : Json :=
  Json.objV
    [ ("choices", Json.arrV [Json.objV []])
    , ("parameters", Json.objV [("brand_awareness",
        Json.objV [("value", Json.numV 1)])]) ]

/-- The C2 counterexample payload: a parameters object whose
brand_awareness value is the non-numeric string abc. -/
def c2CexParams : Json :=
  Json.objV [("brand_awareness", Json.objV [("value", Json.strV "abc")])]

/-- A state with previously established parameters and no insights yet. -/
def failureProbeState : AppState :=
  { params := ⟨some 1, some (-1), some 0, some 2, some 0, some 0⟩
  , insights := none
  , taCapacityRF := .numV 1000000
  , kpiBenchmarks := defaultKpiJson
  , recommendedBudget := .nullV
  , budgetReasoning := .strV ""
  , analysisComplete := false
  , aiErrorMessage := ""
  , paramView := .manual }

/-- A tool-reported failure envelope. -/
def toolFailureData : AIDataL :=
  { successful := false, error := some "сбой инструмента", response := none }

/-- All six sliders within the UI range. -/
def paramsInRange (p : SliderParamsR) : Prop :=
  (-2 ≤ p.brandAwareness ∧ p.brandAwareness ≤ 2) ∧
  (-2 ≤ p.marketSaturation ∧ p.marketSaturation ≤ 2) ∧
  (-2 ≤ p.campaignGoal ∧ p.campaignGoal ≤ 2) ∧
  (-2 ≤ p.targetAudience ∧ p.targetAudience ≤ 2) ∧
  (-2 ≤ p.productComplexity ∧ p.productComplexity ≤ 2) ∧
  (-2 ≤ p.messageComplexity ∧ p.messageComplexity ≤ 2)

/-- All sliders at zero (the initial state). -/
def allZeroParams : SliderParamsR := ⟨0, 0, 0, 0, 0, 0⟩

/-- All sliders at the positive extreme. -/
def allTwoParams : SliderParamsR := ⟨2, 2, 2, 2, 2, 2⟩

/-- All sliders at the negative extreme. -/
def allNegTwoParams : SliderParamsR := ⟨-2, -2, -2, -2, -2, -2⟩

/-! ### Theorems: metric engine -/









/-- Claim C3: the effective frequency equals the clamp of 1 plus the
parameter sum into [1, 15]; every in-range combination lands in [1, 15];
all-zero gives 1, all at +2 gives 13, all at -2 gives 1. -/
theorem c3_frequency_clamped :
    (∀ p : SliderParamsR, frequency p = max 1.0 (min 15.0 (1.0 + sumParams p))) ∧
    (∀ p : SliderParamsR, paramsInRange p →
      1 ≤ frequency p ∧ frequency p ≤ 15) ∧
    frequency allZeroParams = 1 ∧
    frequency allTwoParams = 13 ∧
    frequency allNegTwoParams = 1 := by
  refine ⟨fun p => rfl, fun p _ => ⟨?_, ?_⟩, ?_, ?_, ?_⟩
  · calc (1 : ℝ) ≤ 1.0 := by norm_num
    _ ≤ frequency p := le_max_left _ _
  · calc frequency p ≤ max 1.0 15.0 := by
          unfold frequency
          exact max_le_max (le_refl _) (min_le_left _ _)
    _ ≤ 15 := by norm_num
  · norm_num [frequency, sumParams, allZeroParams]
  · norm_num [frequency, sumParams, allTwoParams]
  · norm_num [frequency, sumParams, allNegTwoParams]

/-- Witness for C3 at the all-zero assignment. -/
theorem c3_frequency_clamped_witness :
    paramsInRange allZeroParams ∧
    (1 ≤ frequency allZeroParams ∧ frequency allZeroParams ≤ 15) :=
  ⟨by norm_num [paramsInRange, allZeroParams],
   c3_frequency_clamped.2.1 allZeroParams
     (by norm_num [paramsInRange, allZeroParams])⟩

/-- Claim C4 (amended): the TOM metric is 0 when the budget field is
empty, when the goal is unset, and when the budget is exactly zero; for
every non-negative budget and set goal it equals the base KPI selected by
goal times the frequency multiplier, the square-root budget correction,
the goal multiplier from the fixed table, 100 and 3.5.  For a strictly
negative budget — reachable through the numeric budget input — the square
root of the negative ratio is NaN, which propagates to the metric: it is
NaN, not the claimed 0; see the counterexample. -/
theorem c4_tom_formula :
    (∀ g f k, calculateTOM none g f k = some 0) ∧
    (∀ (b : ℚ) f k, calculateTOM (some b) "" f k = some 0) ∧
    (∀ (g : String) f k, g ≠ "" → calculateTOM (some 0) g f k = some 0) ∧
    (∀ (b : ℚ) (g : String) f k, b < 0 → g ≠ "" →
      calculateTOM (some b) g f k = none) ∧
    (∀ (b : ℚ) f k, 0 ≤ b → calculateTOM (some b) "awareness" f k =
      some (k.awareness_tom_base * (1 + (f - 1.0) * 0.08) *
        Real.sqrt ((b : ℝ) / 500000) * 1.0 * 100 * 3.5)) ∧
    (∀ (b : ℚ) f k, 0 ≤ b → calculateTOM (some b) "consideration" f k =
      some (k.consideration_search_base * (1 + (f - 1.0) * 0.08) *
        Real.sqrt ((b : ℝ) / 500000) * 0.7 * 100 * 3.5)) ∧
    (∀ (b : ℚ) f k, 0 ≤ b → calculateTOM (some b) "conversion" f k =
      some (k.conversion_uplift_base * (1 + (f - 1.0) * 0.08) *
        Real.sqrt ((b : ℝ) / 500000) * 0.4 * 100 * 3.5)) ∧
    (∀ (b : ℚ) f k, 0 ≤ b → calculateTOM (some b) "retention" f k =
      some (k.retention_ltv_base * (1 + (f - 1.0) * 0.08) *
        Real.sqrt ((b : ℝ) / 500000) * 0.2 * 100 * 3.5)) ∧
    (∀ (b : ℚ) (g : String) f k, 0 ≤ b → g ≠ "awareness" →
      g ≠ "consideration" → g ≠ "conversion" → g ≠ "retention" → g ≠ "" →
      calculateTOM (some b) g f k =
        some (0.15 * (1 + (f - 1.0) * 0.08) *
          Real.sqrt ((b : ℝ) / 500000) * 1.0 * 100 * 3.5)) := by
  have hpos : ∀ b : ℚ, 0 ≤ b → ¬ (((b : ℝ)) / 500000 < 0) := by
    intro b hb
    push_neg
    have : (0 : ℝ) ≤ (b : ℝ) := by exact_mod_cast hb
    exact div_nonneg this (by norm_num)
  refine ⟨fun g f k => rfl, fun b f k => rfl, ?_, ?_, ?_, ?_, ?_, ?_, ?_⟩
  · intro g f k hg
    simp [calculateTOM, if_neg hg, jsSqrt, Real.sqrt_zero]
  · intro b g f k hb hg
    have hlt : ((b : ℝ)) / 500000 < 0 := by
      have hb' : ((b : ℝ)) < 0 := by exact_mod_cast hb
      exact div_neg_of_neg_of_pos hb' (by norm_num)
    simp [calculateTOM, if_neg hg, jsSqrt, hlt]
  · intro b f k hb
    simp [calculateTOM, getBaseTOM, getGoalMultiplier, jsSqrt, hpos b hb]
  · intro b f k hb
    simp [calculateTOM, getBaseTOM, getGoalMultiplier, jsSqrt, hpos b hb]
  · intro b f k hb
    simp [calculateTOM, getBaseTOM, getGoalMultiplier, jsSqrt, hpos b hb]
  · intro b f k hb
    simp [calculateTOM, getBaseTOM, getGoalMultiplier, jsSqrt, hpos b hb]
  · intro b g f k hb h1 h2 h3 h4 h5
    simp [calculateTOM, getBaseTOM, getGoalMultiplier, jsSqrt, hpos b hb,
      h1, h2, h3, h4, h5]

/-- Witness for C4 at budget 0, at a negative budget, and at an unknown
goal name with a positive budget. -/
theorem c4_tom_formula_witness :
    ("awareness" ≠ "" ∧
      calculateTOM (some 0) "awareness" 1 defaultKpiR = some 0) ∧
    ((-100 : ℚ) < 0 ∧
      calculateTOM (some (-100)) "awareness" 1 defaultKpiR = none) ∧
    ((0 : ℚ) ≤ 2000000 ∧
      calculateTOM (some 2000000) "branding" 1 defaultKpiR =
        some (0.15 * (1 + ((1 : ℝ) - 1.0) * 0.08) *
          Real.sqrt (((2000000 : ℚ) : ℝ) / 500000) * 1.0 * 100 * 3.5)) :=
  ⟨⟨by simp, c4_tom_formula.2.2.1 "awareness" 1 defaultKpiR (by simp)⟩,
   ⟨by norm_num,
    c4_tom_formula.2.2.2.1 (-100) "awareness" 1 defaultKpiR
      (by norm_num) (by simp)⟩,
   ⟨by norm_num,
    c4_tom_formula.2.2.2.2.2.2.2.2 2000000 "branding" 1 defaultKpiR
      (by norm_num) (by simp) (by simp) (by simp) (by simp) (by simp)⟩⟩

/-- Counterexample to C4 as stated: at the strictly negative budget
-100000 with the awareness goal, `Math.sqrt` of the negative ratio is NaN
and the metric is NaN (`none`), not 0. -/
theorem c4_negative_budget_counterexample :
    calculateTOM (some (-100000)) "awareness" 1 defaultKpiR = none ∧
    calculateTOM (some (-100000)) "awareness" 1 defaultKpiR ≠ some 0 := by
  have h : calculateTOM (some (-100000)) "awareness" 1 defaultKpiR = none := by
    norm_num [calculateTOM, jsSqrt]
    exact fun hc => absurd hc (by simp)
  refine ⟨h, ?_⟩
  rw [h]
  exact fun hc => Option.noConfusion hc

/-- Claim C5: coverage is guarded — empty or zero budget gives 0 (never a
division artifact), zero capacity gives 0 — and otherwise equals the fixed
impressions-reach-damping formula with CPM 400 and damping 0.08. -/
theorem c5_coverage_guard :
    (∀ f t, calculateCoverage none f t = 0) ∧
    (∀ f t, calculateCoverage (some 0) f t = 0) ∧
    (∀ (b : ℚ) f, calculateCoverage (some b) f 0 = 0) ∧
    (∀ (b : ℚ) f t, f ≠ 0 → t ≠ 0 → calculateCoverage (some b) f t =
      ((b : ℝ) / 400 * 1000) / f / t * 100 * 0.08) := by
  refine ⟨fun f t => rfl, ?_, ?_, ?_⟩
  · intro f t
    by_cases h : f = 0 ∨ t = 0
    · simp [calculateCoverage, h]
    · simp [calculateCoverage, h]
  · intro b f
    simp [calculateCoverage]
  · intro b f t hf ht
    have : ¬ (f = 0 ∨ t = 0) := by
      intro h
      rcases h with h | h
      · exact hf h
      · exact ht h
    simp [calculateCoverage, this]

/-- Witness for C5 at a concrete positive budget, frequency and capacity. -/
theorem c5_coverage_guard_witness :
    (1 : ℝ) ≠ 0 ∧ (2 : ℝ) ≠ 0 ∧
    calculateCoverage (some 400) 1 2 =
      ((400 : ℚ) : ℝ) / 400 * 1000 / 1 / 2 * 100 * 0.08 :=
  ⟨by norm_num, by norm_num,
   c5_coverage_guard.2.2.2 400 1 2 (by norm_num) (by norm_num)⟩

/-- Claim C8: LTV growth is zero when the budget field is empty or the
goal unset, and for a positive budget and set goal equals the retention
base times the LTV goal-multiplier table (0.3/0.5/0.8/1.0, default 0.5),
the 0.05 frequency multiplier, the saturation correction, the capped
budget-quality multiplier, 100 and 7. -/
theorem c8_ltv_growth_formula :
    (∀ g f ms k, calculateLTVGrowth none g f ms k = 0) ∧
    (∀ (b : ℚ) f ms k, calculateLTVGrowth (some b) "" f ms k = 0) ∧
    (∀ (b : ℚ) f ms k, 0 < b → calculateLTVGrowth (some b) "awareness" f ms k =
      k.retention_ltv_base * 0.3 * (1 + (f - 1.0) * 0.05) * (1 - ms * 0.1) *
        min (1.0 + Real.logb 10 ((b : ℝ) / 1000000)) 2.0 * 100 * 7) ∧
    (∀ (b : ℚ) f ms k, 0 < b → calculateLTVGrowth (some b) "consideration" f ms k =
      k.retention_ltv_base * 0.5 * (1 + (f - 1.0) * 0.05) * (1 - ms * 0.1) *
        min (1.0 + Real.logb 10 ((b : ℝ) / 1000000)) 2.0 * 100 * 7) ∧
    (∀ (b : ℚ) f ms k, 0 < b → calculateLTVGrowth (some b) "conversion" f ms k =
      k.retention_ltv_base * 0.8 * (1 + (f - 1.0) * 0.05) * (1 - ms * 0.1) *
        min (1.0 + Real.logb 10 ((b : ℝ) / 1000000)) 2.0 * 100 * 7) ∧
    (∀ (b : ℚ) f ms k, 0 < b → calculateLTVGrowth (some b) "retention" f ms k =
      k.retention_ltv_base * 1.0 * (1 + (f - 1.0) * 0.05) * (1 - ms * 0.1) *
        min (1.0 + Real.logb 10 ((b : ℝ) / 1000000)) 2.0 * 100 * 7) ∧
    (∀ (b : ℚ) (g : String) f ms k, 0 < b → g ≠ "awareness" →
      g ≠ "consideration" → g ≠ "conversion" → g ≠ "retention" → g ≠ "" →
      calculateLTVGrowth (some b) g f ms k =
        k.retention_ltv_base * 0.5 * (1 + (f - 1.0) * 0.05) * (1 - ms * 0.1) *
          min (1.0 + Real.logb 10 ((b : ℝ) / 1000000)) 2.0 * 100 * 7) := by
  refine ⟨fun g f ms k => rfl, fun b f ms k => rfl, ?_, ?_, ?_, ?_, ?_⟩
  · intro b f ms k _
    simp [calculateLTVGrowth, ltvGoalMultiplier]
  · intro b f ms k _
    simp [calculateLTVGrowth, ltvGoalMultiplier]
  · intro b f ms k _
    simp [calculateLTVGrowth, ltvGoalMultiplier]
  · intro b f ms k _
    simp [calculateLTVGrowth, ltvGoalMultiplier]
  · intro b g f ms k _ h1 h2 h3 h4 h5
    simp [calculateLTVGrowth, ltvGoalMultiplier, h1, h2, h3, h4, h5]

/-- Witness for C8 at budget 1000000 with the retention goal. -/
theorem c8_ltv_growth_formula_witness :
    (0 : ℚ) < 1000000 ∧
    calculateLTVGrowth (some 1000000) "retention" 1 0 defaultKpiR =
      defaultKpiR.retention_ltv_base * 1.0 * (1 + ((1 : ℝ) - 1.0) * 0.05) *
        (1 - 0 * 0.1) *
        min (1.0 + Real.logb 10 (((1000000 : ℚ) : ℝ) / 1000000)) 2.0 * 100 * 7 :=
  ⟨by norm_num,
   c8_ltv_growth_formula.2.2.2.2.2.1 1000000 1 0 defaultKpiR (by norm_num)⟩

/-- Claim C10: for every real-valued slider assignment the frequency is at
least 1 (the lower clamp is unconditional), hence never 0, so the zero
guard on frequency in the coverage computation is unreachable and the
reach division is always by a nonzero frequency. -/
theorem c10_frequency_guard_unreachable :
    (∀ p : SliderParamsR, 1 ≤ frequency p) ∧
    (∀ p : SliderParamsR, frequency p ≠ 0) ∧
    (∀ (b : ℚ) (t : ℝ) (p : SliderParamsR), t ≠ 0 →
      calculateCoverage (some b) (frequency p) t =
        ((b : ℝ) / 400 * 1000) / frequency p / t * 100 * 0.08) := by
  have h1 : ∀ p : SliderParamsR, 1 ≤ frequency p := by
    intro p
    calc (1 : ℝ) ≤ 1.0 := by norm_num
    _ ≤ frequency p := le_max_left _ _
  refine ⟨h1, fun p => ?_, fun b t p ht => ?_⟩
  · have := h1 p
    intro h
    rw [h] at this
    norm_num at this
  · have hf : frequency p ≠ 0 := by
      have := h1 p
      intro h
      rw [h] at this
      norm_num at this
    have : ¬ (frequency p = 0 ∨ t = 0) := by
      intro h
      rcases h with h | h
      · exact hf h
      · exact ht h
    simp [calculateCoverage, this]

/-- Witness for C10 with nonzero capacity at the all-zero assignment. -/
theorem c10_frequency_guard_unreachable_witness :
    (1000000 : ℝ) ≠ 0 ∧
    calculateCoverage (some 1000000) (frequency allZeroParams) 1000000 =
      ((1000000 : ℚ) : ℝ) / 400 * 1000 / frequency allZeroParams / 1000000 *
        100 * 0.08 :=
  ⟨by norm_num,
   c10_frequency_guard_unreachable.2.2 1000000 1000000 allZeroParams
     (by norm_num)⟩


/-- Claim C9: the end-to-end scenario — budget 1000000, goal awareness,
all six sliders at 0, default benchmarks and capacity — yields frequency
1, a TOM of 0.15 times sqrt 2 times 350 (about 74.25, within 0.01), and a
coverage of exactly 20 percent. -/
theorem c9_end_to_end :
    frequency allZeroParams = 1 ∧
    calculateTOM (some 1000000) "awareness" (frequency allZeroParams)
        defaultKpiR = some (0.15 * 1.0 * Real.sqrt 2.0 * 1.0 * 100 * 3.5) ∧
    |(calculateTOM (some 1000000) "awareness" (frequency allZeroParams)
        defaultKpiR).getD 0 - 74.25| < 0.01 ∧
    calculateCoverage (some 1000000) (frequency allZeroParams) 1000000 = 20 := by
  have hf : frequency allZeroParams = 1 := by
    norm_num [frequency, sumParams, allZeroParams]
  have harg : (((1000000 : ℚ) : ℝ) / 500000) = 2 := by norm_num
  have hsq2 : jsSqrt (((1000000 : ℚ) : ℝ) / 500000) = some (Real.sqrt 2) := by
    rw [harg]
    simp [jsSqrt]
  have htom : calculateTOM (some 1000000) "awareness" (frequency allZeroParams)
      defaultKpiR = some (0.15 * 1.0 * Real.sqrt 2.0 * 1.0 * 100 * 3.5) := by
    rw [hf]
    rw [show calculateTOM (some 1000000) "awareness" 1 defaultKpiR =
        (jsSqrt (((1000000 : ℚ) : ℝ) / 500000)).map (fun s =>
          defaultKpiR.awareness_tom_base * (1 + ((1 : ℝ) - 1.0) * 0.08) *
            s * getGoalMultiplier "awareness" * 100 * 3.5) from by
      simp [calculateTOM, getBaseTOM]]
    rw [hsq2]
    simp only [Option.map_some']
    norm_num [defaultKpiR, getGoalMultiplier]
  refine ⟨hf, htom, ?_, ?_⟩
  · rw [htom]
    simp only [Option.getD_some]
    have hsq : Real.sqrt 2.0 ^ 2 = (2.0 : ℝ) := Real.sq_sqrt (by norm_num)
    have hnn : 0 ≤ Real.sqrt 2.0 := Real.sqrt_nonneg _
    rw [abs_sub_lt_iff]
    constructor <;> nlinarith [hsq, hnn]
  · rw [hf]
    have : ¬ ((1 : ℝ) = 0 ∨ (1000000 : ℝ) = 0) := by norm_num
    simp only [calculateCoverage, this, if_false]
    norm_num


/-! ### Theorems: response normalizer -/



/-- Claim C1 (amended): the dispatch commits to strategy 1 as soon as the
envelope carries a non-empty choices array — in particular, when
choices[0].message.content is an object it becomes the payload even if the
envelope also has a top-level parameters field — and the envelope itself
is the payload only when the choices condition fails while a parameters
field is present.  (When the choices condition holds but the first element
lacks message.content, normalization fails instead of falling back; see
the counterexample.) -/
theorem c1_strategy_priority :
    (∀ (resp c0 : Json) (cs : List Json) (m content : Json),
      jsGet resp "choices" = some (.arrV (c0 :: cs)) →
      jsGet c0 "message" = some m →
      objLike m = true →
      jsGet m "content" = some content →
      objLike content = true →
      extractPayload resp = .ok content) ∧
    (∀ resp : Json, objLike resp = true → choicesCond resp = false →
      jsHas resp "parameters" = true → extractPayload resp = .ok resp) := by
  constructor
  · intro resp c0 cs m content h1 h2 hm h4 hc
    have hobjResp : objLike resp = true := by
      cases resp
      case objV kvs => rfl
      all_goals simp [jsGet] at h1
    have hobjC0 : objLike c0 = true := by
      cases c0
      case objV kvs => rfl
      all_goals simp [jsGet] at h2
    simp only [extractPayload, hobjResp, Bool.not_true, Bool.false_eq_true,
      if_false, h1, handleChoice, hobjC0, h2, hm, if_true, handleMessage, h4]
    cases content <;> simp_all [objLike]
  · intro resp ho hcc hp
    simp only [extractPayload, ho, Bool.not_true, Bool.false_eq_true, if_false]
    split
    · rename_i heq
      unfold choicesCond at hcc
      rw [heq] at hcc
      simp at hcc
    · simp [hp]

/-- Witness for C1: a choices envelope whose content object wins over the
top-level parameters, and a choices-free envelope used directly. -/
theorem c1_strategy_priority_witness :
    extractPayload (Json.objV
      [ ("choices", Json.arrV [Json.objV [("message", Json.objV
          [("content", Json.objV [("parameters", Json.objV [])])])]])
      , ("parameters", Json.strV "top") ]) =
      .ok (Json.objV [("parameters", Json.objV [])]) ∧
    extractPayload (Json.objV [("parameters", Json.objV [])]) =
      .ok (Json.objV [("parameters", Json.objV [])]) :=
  ⟨c1_strategy_priority.1
      (Json.objV
        [ ("choices", Json.arrV [Json.objV [("message", Json.objV
            [("content", Json.objV [("parameters", Json.objV [])])])]])
        , ("parameters", Json.strV "top") ])
      (Json.objV [("message", Json.objV
        [("content", Json.objV [("parameters", Json.objV [])])])])
      []
      (Json.objV [("content", Json.objV [("parameters", Json.objV [])])])
      (Json.objV [("parameters", Json.objV [])])
      rfl rfl rfl rfl rfl,
   c1_strategy_priority.2 (Json.objV [("parameters", Json.objV [])])
      rfl rfl rfl⟩



/-- Counterexample to C1 as stated: the envelope has a parameters field
and its choices-shape condition fails (the first element has no
message.content), yet the envelope is not used as the payload — the
normalizer throws instead of falling through to strategy 2. -/
theorem c1_choices_counterexample :
    jsHas c1CexEnvelope "parameters" = true ∧
    extractPayload c1CexEnvelope =
      .error (.thrown "Нет поля message в choice") ∧
    extractPayload c1CexEnvelope ≠ .ok c1CexEnvelope := by
  refine ⟨rfl, rfl, ?_⟩
  intro h
  rw [show extractPayload c1CexEnvelope =
      .error (.thrown "Нет поля message в choice") from rfl] at h
  exact Except.noConfusion h

/-- Claim C2 (amended): a present numeric value is clamped into [-2, 2];
an absent key, or an entry without a value (or with a null value), yields
0 with the fixed placeholder insight and source; every clamp output lies
in [-2, 2] and the three stated clamp examples hold.  A present non-null,
non-numeric value is instead fed to the JavaScript numeric coercion, so a
non-coercible value produces NaN rather than 0; see the counterexample. -/
theorem c2_clamp_and_defaults :
    (∀ (ps : Json) (key : String) (e : Json) (q : ℚ),
      jsGet ps key = some e → jsGet e "value" = some (.numV q) →
      sliderValue ps key = some (clampQ q)) ∧
    (∀ (ps : Json) (key : String), jsGet ps key = none →
      sliderValue ps key = some 0) ∧
    (∀ (ps : Json) (key : String) (e : Json),
      jsGet ps key = some e → jsGet e "value" = none →
      sliderValue ps key = some 0) ∧
    (∀ (ps : Json) (key : String), jsGet ps key = none →
      insightOf ps key =
        ⟨key, some 0, .strV "Инсайт недоступен", .strV "ИИ-Анализ"⟩) ∧
    (∀ (v : Json) (q : ℚ), clampJS v = some q → -2 ≤ q ∧ q ≤ 2) ∧
    clampJS (.numV (-5)) = some (-2) ∧
    clampJS (.numV 5) = some 2 ∧
    clampJS (.numV 0.37) = some 0.37 := by
  have hslider0 : ∀ (ps : Json) (key : String), jsGet ps key = none →
      sliderValue ps key = some 0 := by
    intro ps key h
    unfold sliderValue rawValue
    rw [h]
    decide
  have hrange : ∀ q : ℚ, -2 ≤ clampQ q ∧ clampQ q ≤ 2 := fun q =>
    ⟨le_max_left _ _, max_le (by norm_num) (min_le_left _ _)⟩
  have hc1 : clampQ (-5) = -2 := by
    unfold clampQ
    rw [min_eq_right (by norm_num), max_eq_left (by norm_num)]
  have hc2 : clampQ 5 = 2 := by
    unfold clampQ
    rw [min_eq_left (by norm_num), max_eq_right (by norm_num)]
  have hc3 : clampQ 0.37 = 0.37 := by
    unfold clampQ
    rw [min_eq_right (by norm_num), max_eq_right (by norm_num)]
  refine ⟨?_, hslider0, ?_, ?_, ?_,
    by simp [clampJS, toNumber, hc1], by simp [clampJS, toNumber, hc2],
    by simp [clampJS, toNumber, hc3]⟩
  · intro ps key e q h1 h2
    unfold sliderValue rawValue
    rw [h1]
    cases e with
    | objV flds =>
      simp only [h2]
      simp [clampJS, toNumber]
    | nullV => simp [jsGet] at h2
    | boolV b => simp [jsGet] at h2
    | numV r => simp [jsGet] at h2
    | strV s => simp [jsGet] at h2
    | arrV xs => simp [jsGet] at h2
  · intro ps key e h1 h2
    unfold sliderValue rawValue
    rw [h1]
    cases e with
    | objV flds =>
      simp only [h2]
      decide
    | nullV => decide
    | boolV b =>
      simp only [jsGet]
      decide
    | numV r =>
      simp only [jsGet]
      decide
    | strV s =>
      simp only [jsGet]
      decide
    | arrV xs =>
      simp only [jsGet]
      decide
  · intro ps key h
    unfold insightOf textField
    rw [hslider0 ps key h, h]
    rfl
  · intro v q h
    unfold clampJS at h
    cases htn : toNumber v with
    | none =>
      rw [htn, Option.map_none'] at h
      exact Option.noConfusion h
    | some r =>
      rw [htn, Option.map_some'] at h
      injection h with h'
      rw [← h']
      exact hrange r

/-- Witness for C2: concrete evaluations through the theorem for a present
numeric value, an absent key, and the clamp range. -/
theorem c2_clamp_and_defaults_witness :
    (sliderValue (Json.objV [("brand_awareness",
        Json.objV [("value", Json.numV (-5))])]) "brand_awareness" =
      some (clampQ (-5)) ∧
     sliderValue (Json.objV []) "market_saturation" = some 0 ∧
     insightOf (Json.objV []) "market_saturation" =
       ⟨"market_saturation", some 0, .strV "Инсайт недоступен",
         .strV "ИИ-Анализ"⟩) ∧
    (-2 ≤ clampQ (-5) ∧ clampQ (-5) ≤ 2) :=
  ⟨⟨c2_clamp_and_defaults.1
      (Json.objV [("brand_awareness", Json.objV [("value", Json.numV (-5))])])
      "brand_awareness"
      (Json.objV [("value", Json.numV (-5))]) (-5) rfl rfl,
    c2_clamp_and_defaults.2.1 (Json.objV []) "market_saturation" rfl,
    c2_clamp_and_defaults.2.2.2.1 (Json.objV []) "market_saturation" rfl⟩,
   c2_clamp_and_defaults.2.2.2.2.1 (Json.numV (-5)) (clampQ (-5)) rfl⟩



/-- Counterexample to C2 as stated: a present but non-numeric value does
not default to 0 — the catch-all coercion inside the clamp turns it into
NaN (modelled as none), which is then stored. -/
theorem c2_nan_counterexample :
    jsGet (jsGet c2CexParams "brand_awareness" |>.getD .nullV) "value" =
      some (.strV "abc") ∧
    sliderValue c2CexParams "brand_awareness" = none ∧
    sliderValue c2CexParams "brand_awareness" ≠ some 0 := by
  refine ⟨rfl, rfl, ?_⟩
  intro h
  rw [show sliderValue c2CexParams "brand_awareness" = none from rfl] at h
  exact Option.noConfusion h


/-- Claim C6: whenever the AI-response effect ends with a stored error
message, the previously set slider parameters and insights are completely
unchanged; a tool-reported failure in particular changes nothing but the
error message.  The transition is a total function, so no exception
escapes the normalization boundary by construction. -/
theorem c6_failure_isolation :
    (∀ (s : AppState) (d : Option AIDataL),
      (processAIResponse s d).aiErrorMessage ≠ "" →
      (processAIResponse s d).params = s.params ∧
      (processAIResponse s d).insights = s.insights) ∧
    (∀ (s : AppState) (a : AIDataL), a.successful = false →
      processAIResponse s (some a) =
        { s with aiErrorMessage := toolErrorMsg a.error }) := by
  constructor
  · intro s d
    cases d with
    | none => exact fun _ => ⟨rfl, rfl⟩
    | some a =>
      intro h
      cases hsa : a.successful with
      | false => constructor <;> simp [processAIResponse, hsa]
      | true =>
        cases hr : a.response with
        | none => constructor <;> simp [processAIResponse, hsa, hr]
        | some r =>
          cases htr : jsTruthy r with
          | false => constructor <;> simp [processAIResponse, hsa, hr, htr]
          | true =>
            cases hn : normalizeResponse r with
            | error e =>
              constructor <;> simp [processAIResponse, hsa, hr, htr, hn]
            | ok b =>
              exfalso
              apply h
              simp [processAIResponse, hsa, hr, htr, hn]
  · intro s a ha
    simp [processAIResponse, ha]





/-- Witness for C6 at a tool-reported failure. -/
theorem c6_failure_isolation_witness :
    (processAIResponse failureProbeState (some toolFailureData)).aiErrorMessage
        ≠ "" ∧
    ((processAIResponse failureProbeState
        (some toolFailureData)).params = failureProbeState.params ∧
      (processAIResponse failureProbeState
        (some toolFailureData)).insights = failureProbeState.insights) :=
  ⟨by simp [processAIResponse, toolFailureData, toolErrorMsg],
   c6_failure_isolation.1 failureProbeState (some toolFailureData)
     (by simp [processAIResponse, toolFailureData, toolErrorMsg])⟩

/-- Claim C7 (amended): a missing or zero ta_capacity_rf defaults to
1000000, but any nonzero number — including a negative one — is passed
through unchanged, because the fallback tests JavaScript truthiness, not
positivity; see the counterexample. -/
theorem c7_ta_capacity_default :
    (∀ p : Json, jsGet p "ta_capacity_rf" = none →
      taCapacityOf p = .numV 1000000) ∧
    (∀ p : Json, jsGet p "ta_capacity_rf" = some (.numV 0) →
      taCapacityOf p = .numV 1000000) ∧
    (∀ (p : Json) (q : ℚ), jsGet p "ta_capacity_rf" = some (.numV q) →
      q ≠ 0 → taCapacityOf p = .numV q) := by
  refine ⟨?_, ?_, ?_⟩
  · intro p h
    simp [taCapacityOf, jsOrDefault, h]
  · intro p h
    simp [taCapacityOf, jsOrDefault, h, jsTruthy]
  · intro p q h hq
    simp [taCapacityOf, jsOrDefault, h, jsTruthy, hq]

/-- Witness for C7: a positive capacity passes through, an absent one
defaults. -/
theorem c7_ta_capacity_default_witness :
    ((2000000 : ℚ) ≠ 0 ∧
      taCapacityOf (Json.objV [("ta_capacity_rf", Json.numV 2000000)]) =
        Json.numV 2000000) ∧
    taCapacityOf (Json.objV []) = Json.numV 1000000 :=
  ⟨⟨by norm_num,
    c7_ta_capacity_default.2.2 (Json.objV [("ta_capacity_rf", Json.numV 2000000)])
      2000000 rfl (by norm_num)⟩,
   c7_ta_capacity_default.1 (Json.objV []) rfl⟩

/-- Counterexample to C7 as stated: a negative ta_capacity_rf is truthy,
so it is stored as-is instead of being replaced by the default. -/
theorem c7_negative_capacity_counterexample :
    taCapacityOf (Json.objV [("ta_capacity_rf", Json.numV (-5))]) =
      Json.numV (-5) ∧
    taCapacityOf (Json.objV [("ta_capacity_rf", Json.numV (-5))]) ≠
      Json.numV 1000000 := by
  refine ⟨rfl, ?_⟩
  rw [show taCapacityOf (Json.objV [("ta_capacity_rf", Json.numV (-5))]) =
      Json.numV (-5) from rfl]
  simp only [ne_eq, Json.numV.injEq]
  norm_num

end FreqCalc
